import Mathlib

/-! Verification of `kws_streaming/models/att_rnn.py`

A shallow embedding of the BiLSTM-attention keyword-spotting model builder.
The Python file has two functions:

* `model_parameters(parser_nn)` — registers eleven command-line
  hyperparameters (each with a default) on an argparse-style parser;
* `model(flags)` — wires Keras layer objects into one acyclic computation
  graph (audio input → SpeechFeatures → expand_dims → Conv2D/BatchNorm
  stages → Reshape → Bidirectional RNN stack → mid-sequence attention
  pooling → Dropout → hidden Dense stack → final Dense) and returns a
  `tf.keras.Model`.

The embedding below models the constructed graph explicitly: each layer
application appends a `Node` (layer descriptor, input tensor ids, static
output shape including the batch dimension) to a `Graph`.  Python floats
are modelled as rationals (`Rat`); machine integers do not overflow in
this file's arithmetic, so `Nat`/`Int` are used directly.  Failures that
the TensorFlow/Keras runtime would raise while building the graph
(KeyError from an unsupported RNN type, literal-parsing failures,
ill-typed layer hyperparameters, out-of-range slicing) are modelled with
`Except ModelError`.
-/

set_option autoImplicit false

namespace AttRnn

/-- A value produced by parsing a hyperparameter string such as `10,1`,
`(5,1),(5,1)` or `'relu','relu'`: an integer, a pair of integers, or a
quoted string. -/
inductive ParamVal where
  | int (n : Int)
  | pair (a b : Int)
  | str (s : String)
deriving DecidableEq, Repr

/-- Split a hyperparameter string at the commas that sit at parenthesis
depth 0 and outside single quotes (helper for `parse`). -/
def splitTopAux : List Char → Nat → Bool → List Char → List (List Char)
  | [], _, _, acc => [acc.reverse]
  | c :: cs, depth, inQ, acc =>
    if inQ then
      splitTopAux cs depth (c ≠ '\'') (c :: acc)
    else if c = '\'' then
      splitTopAux cs depth true (c :: acc)
    else if c = '(' then
      splitTopAux cs (depth + 1) false (c :: acc)
    else if c = ')' then
      splitTopAux cs (depth - 1) false (c :: acc)
    else if c = ',' ∧ depth = 0 then
      acc.reverse :: splitTopAux cs 0 false []
    else
      splitTopAux cs depth false (c :: acc)

/-- Strip leading and trailing whitespace from a character list. -/
def trimChars (cs : List Char) : List Char :=
  ((cs.dropWhile Char.isWhitespace).reverse.dropWhile Char.isWhitespace).reverse

/-- Read a non-empty run of decimal digits as a natural number. -/
def digitsToNat? (cs : List Char) : Option Nat :=
  if cs = [] then none
  else
    cs.foldl
      (fun acc c =>
        match acc with
        | none => none
        | some n =>
          if c.isDigit then some (n * 10 + (c.toNat - '0'.toNat)) else none)
      (some 0)

/-- Read an optionally-signed decimal integer literal. -/
def toIntChars : List Char → Option Int
  | '-' :: cs => (digitsToNat? cs).map fun n => -(n : Int)
  | cs => (digitsToNat? cs).map fun n => (n : Int)

/-- Split a character list at every occurrence of `sep`. -/
def splitChar (sep : Char) : List Char → List (List Char)
  | [] => [[]]
  | c :: cs =>
    if c = sep then [] :: splitChar sep cs
    else
      match splitChar sep cs with
      | [] => [[c]]
      | t :: ts => (c :: t) :: ts

/-- Parse one comma-free token: a quoted string, a parenthesised pair of
integers, or a plain integer literal. -/
def parseToken (cs : List Char) : Option ParamVal :=
  match trimChars cs with
  | '\'' :: rest =>
    if rest.getLast? = some '\'' then
      some (ParamVal.str (String.mk rest.dropLast))
    else none
  | '(' :: rest =>
    if rest.getLast? = some ')' then
      match splitChar ',' rest.dropLast with
      | [a, b] =>
        match toIntChars (trimChars a), toIntChars (trimChars b) with
        | some x, some y => some (ParamVal.pair x y)
        | _, _ => none
      | _ => none
    else none
  | t => (toIntChars t).map ParamVal.int

/-- Modelled from the spec: the `parse` helper of
`kws_streaming/models/utils` (invoked by `model` but not under `src/`).
Per the spec it turns a registered hyperparameter string — a
comma-separated sequence of integers, integer pairs or quoted strings,
e.g. `10,1`, `(5,1),(5,1)`, `'relu','relu'` — into the list of parsed
parameters; an empty string yields the empty list, and a string that is
not such a literal makes the surrounding call fail (`none`). -/
def parse (s : String) : Option (List ParamVal) :=
  if s.data = [] then some []
  else (splitTopAux s.data 0 false []).mapM parseToken

/-- Extract a non-negative integer hyperparameter (Keras checks that
`filters` / `units` is an integer). -/
def ParamVal.asNat? : ParamVal → Option Nat
  | .int n => if 0 ≤ n then some n.toNat else none
  | _ => none

/-- Extract a positive size pair, normalising a single integer `n` to
`(n, n)` the way Keras normalises `strides`. -/
def ParamVal.asSizePair? : ParamVal → Option (Nat × Nat)
  | .int n => if 1 ≤ n then some (n.toNat, n.toNat) else none
  | .pair a b => if 1 ≤ a ∧ 1 ≤ b then some (a.toNat, b.toNat) else none
  | .str _ => none

/-- The flag fields that `model_parameters` and `model` read.  String
fields hold the unparsed hyperparameter text exactly as argparse stores
it; float-typed flags are modelled as rationals. -/
structure Flags where
  desired_samples : Nat
  batch_size : Nat
  window_size_ms : Rat
  window_stride_ms : Rat
  sample_rate : Nat
  use_tf_fft : Bool
  preemph : Rat
  window_type : String
  mel_num_bins : Nat
  mel_lower_edge_hertz : Rat
  mel_upper_edge_hertz : Rat
  mel_non_zero_only : Bool
  fft_magnitude_squared : Bool
  dct_num_features : Nat
  cnn_filters : String
  cnn_kernel_size : String
  cnn_act : String
  cnn_dilation_rate : String
  cnn_strides : String
  rnn_layers : Nat
  rnn_type : String
  rnn_units : Nat
  dropout1 : Rat
  units2 : String
  act2 : String
  label_count : Nat
deriving DecidableEq, Repr

/-- The keyword arguments handed to the external
`speech_features.SpeechFeatures` layer, in the order of the call site. -/
structure SpeechFeaturesParams where
  frame_size_ms : Rat
  frame_step_ms : Rat
  sample_rate : Nat
  use_tf_fft : Bool
  preemph : Rat
  window_type : String
  mel_num_bins : Nat
  mel_lower_edge_hertz : Rat
  mel_upper_edge_hertz : Rat
  mel_non_zero_only : Bool
  fft_magnitude_squared : Bool
  dct_num_features : Nat
deriving DecidableEq, Repr

/-- The two entries of the `rnn_types` dictionary in `model`. -/
inductive RnnType where
  | lstm
  | gru
deriving DecidableEq, Repr

/-- One layer (or raw tensor op) of the constructed Keras graph, with the
hyperparameters the source passes to it. -/
inductive Layer where
  | input (shape : List Nat) (batchSize : Nat)
  | speechFeatures (p : SpeechFeaturesParams)
  | expandDims
  | conv2D (filters kernel_size activation dilation_rate strides : ParamVal)
      (padding : String)
  | batchNormalization
  | reshape (targetShape : List Int)
  | bidirectional (cell : RnnType) (units : Nat)
      (returnSequences unroll : Bool)
  | sliceMiddle (timeIndex : Nat)
  | dense (units : Nat) (activation : Option ParamVal)
  | dot (axes : Nat × Nat)
  | softmax (layerName : String)
  | dropout (rate : Rat)
deriving DecidableEq, Repr

/-- One node of the computation graph: a layer applied to the tensors
`inputs` (ids of earlier nodes), producing a tensor of static shape
`outShape` (batch dimension included). -/
structure Node where
  id : Nat
  layer : Layer
  inputs : List Nat
  outShape : List Nat
deriving DecidableEq, Repr

/-- The computation graph, nodes listed in construction order. -/
structure Graph where
  nodes : List Node
deriving DecidableEq, Repr

/-- Apply a layer to existing tensors: append a node and return its id. -/
def Graph.addNode (g : Graph) (l : Layer) (ins : List Nat)
    (sh : List Nat) : Graph × Nat :=
  (⟨g.nodes ++ [⟨g.nodes.length, l, ins, sh⟩]⟩, g.nodes.length)

/-- The value `model` returns: the graph together with the ids of the
input tensor and the output tensor handed to `tf.keras.Model`. -/
structure KerasModel where
  graph : Graph
  inputId : Nat
  outputId : Nat
deriving DecidableEq, Repr

/-- Failures surfacing while `model` builds the graph. -/
inductive ModelError where
  | keyError (key : String)
  | valueError (msg : String)
  | parseError (field : String)
  | layerError (msg : String)
deriving DecidableEq, Repr

/-- Builder state threaded through `model`: the graph so far, the id of
the current tensor `net`, and its static shape. -/
structure BState where
  g : Graph
  tid : Nat
  sh : List Nat
deriving DecidableEq, Repr

/-- Output length of a `padding='same'` convolution along one axis. -/
def sameOut (n s : Nat) : Nat := (n + s - 1) / s

/-- One iteration of the convolutional loop: `Conv2D(...)` followed by
`BatchNormalization()`. -/
structure ConvP where
  filters : ParamVal
  kernel_size : ParamVal
  activation : ParamVal
  dilation_rate : ParamVal
  strides : ParamVal
deriving DecidableEq, Repr

/-- Python's five-way `zip`: truncates to the shortest list. -/
def zip5 (as bs cs ds es : List ParamVal) : List ConvP :=
  ((((as.zip bs).zip cs).zip ds).zip es).map
    fun p => ⟨p.1.1.1.1, p.1.1.1.2, p.1.1.2, p.1.2, p.2⟩

theorem zip5_length (as bs cs ds es : List ParamVal) :
    (zip5 as bs cs ds es).length =
      ((((as.length.min bs.length).min cs.length).min ds.length).min
        es.length) := by
  simp [zip5]

/-- One `Conv2D` + `BatchNormalization` stage applied to the rank-4 tensor
`net` ([batch, time, feature, channels]). -/
def convStage (p : ConvP) (st : BState) : Except ModelError BState :=
  match st.sh with
  | [b, t, f, _c] =>
    match p.filters.asNat?, p.strides.asSizePair? with
    | some nf, some (s1, s2) =>
      let outSh := [b, sameOut t s1, sameOut f s2, nf]
      let (g1, id1) := st.g.addNode
        (.conv2D p.filters p.kernel_size p.activation p.dilation_rate
          p.strides "same") [st.tid] outSh
      let (g2, id2) := g1.addNode .batchNormalization [id1] outSh
      .ok ⟨g2, id2, outSh⟩
    | _, _ => .error (.layerError "Conv2D")
  | _ => .error (.layerError "Conv2D rank")

/-- The convolutional `for` loop of `model`. -/
def convStages : List ConvP → BState → Except ModelError BState
  | [], st => .ok st
  | p :: ps, st =>
    match convStage p st with
    | .error e => .error e
    | .ok st' => convStages ps st'

/-- `net = tf.keras.layers.Reshape((-1, shape[2] * shape[3]))(net)`:
collapse feature and channel dimensions so the RNN can process the
tensor; Keras infers the `-1` dimension from the (fully known) input
shape. -/
def reshapeStep (st : BState) : Except ModelError BState :=
  match st.sh with
  | [b, t, f, c] =>
    if f * c = 0 then .error (.layerError "Reshape")
    else
      let (g1, id1) := st.g.addNode (.reshape [-1, (f * c : Int)])
        [st.tid] [b, t * f * c / (f * c), f * c]
      .ok ⟨g1, id1, [b, t * f * c / (f * c), f * c]⟩
  | _ => .error (.layerError "Reshape rank")

/-- One `Bidirectional(rnn(units, return_sequences=True, unroll=True))`
layer; the concatenating Bidirectional wrapper doubles the feature
dimension. -/
def rnnStage (r : RnnType) (units : Nat) (st : BState) :
    Except ModelError BState :=
  match st.sh with
  | [b, t, _f] =>
    let (g1, id1) := st.g.addNode
      (.bidirectional r units true true) [st.tid] [b, t, 2 * units]
    .ok ⟨g1, id1, [b, t, 2 * units]⟩
  | _ => .error (.layerError "Bidirectional rank")

/-- The `for _ in range(flags.rnn_layers)` loop of `model`. -/
def rnnStages (r : RnnType) (units : Nat) :
    Nat → BState → Except ModelError BState
  | 0, st => .ok st
  | n + 1, st =>
    match rnnStage r units st with
    | .error e => .error e
    | .ok st' => rnnStages r units n st'

/-- The attention pooling head of `model`:

* `feature_dim = net.shape[-1]`, `middle = net.shape[1] // 2`;
* `mid_feature = net[:, middle, :]` (fails if the time axis is empty);
* `query = Dense(feature_dim)(mid_feature)`;
* `att_weights = Softmax(name='attSoftmax')(Dot(axes=[1,2])([query, net]))`;
* `net = Dot(axes=[1,1])([att_weights, net])`. -/
def attentionStep (st : BState) : Except ModelError BState :=
  match st.sh with
  | [b, t, f] =>
    if t = 0 then .error (.layerError "middle index out of range")
    else
      let middle := t / 2
      let (g1, midId) := st.g.addNode (.sliceMiddle middle) [st.tid] [b, f]
      let (g2, qId) := g1.addNode (.dense f none) [midId] [b, f]
      let (g3, wId) := g2.addNode (.dot (1, 2)) [qId, st.tid] [b, t]
      let (g4, sId) := g3.addNode (.softmax "attSoftmax") [wId] [b, t]
      let (g5, oId) := g4.addNode (.dot (1, 1)) [sId, st.tid] [b, f]
      .ok ⟨g5, oId, [b, f]⟩
  | _ => .error (.layerError "attention rank")

/-- `net = Dropout(rate=flags.dropout1)(net)`. -/
def dropoutStep (rate : Rat) (st : BState) : BState :=
  let (g1, id1) := st.g.addNode (.dropout rate) [st.tid] st.sh
  ⟨g1, id1, st.sh⟩

/-- One hidden `Dense(units, activation)` layer from the `units2`/`act2`
loop (Keras rejects a non-integer `units`). -/
def denseStage (p : ParamVal × ParamVal) (st : BState) :
    Except ModelError BState :=
  match p.1.asNat? with
  | some u =>
    let outSh := st.sh.dropLast ++ [u]
    let (g1, id1) := st.g.addNode (.dense u (some p.2)) [st.tid] outSh
    .ok ⟨g1, id1, outSh⟩
  | none => .error (.layerError "Dense units")

/-- The `for units, activation in zip(parse(flags.units2),
parse(flags.act2))` loop of `model`. -/
def denseStages : List (ParamVal × ParamVal) → BState →
    Except ModelError BState
  | [], st => .ok st
  | p :: ps, st =>
    match denseStage p st with
    | .error e => .error e
    | .ok st' => denseStages ps st'

/-- The last layer: `net = Dense(units=flags.label_count)(net)` — no
activation argument, so the activation is `None` (linear logits). -/
def finalDenseStep (labelCount : Nat) (st : BState) : BState :=
  let outSh := st.sh.dropLast ++ [labelCount]
  let (g1, id1) := st.g.addNode (.dense labelCount none) [st.tid] outSh
  ⟨g1, id1, outSh⟩

/-- The `rnn_types` dictionary of `model`
(`{'lstm': tf.keras.layers.LSTM, 'gru': tf.keras.layers.GRU}`). -/
def rnn_types : List (String × RnnType) :=
  [("lstm", RnnType.lstm), ("gru", RnnType.gru)]

/-- The SpeechFeatures keyword arguments, each taken verbatim from the
corresponding flag. -/
def sfParamsOf (flags : Flags) : SpeechFeaturesParams where
  frame_size_ms := flags.window_size_ms
  frame_step_ms := flags.window_stride_ms
  sample_rate := flags.sample_rate
  use_tf_fft := flags.use_tf_fft
  preemph := flags.preemph
  window_type := flags.window_type
  mel_num_bins := flags.mel_num_bins
  mel_lower_edge_hertz := flags.mel_lower_edge_hertz
  mel_upper_edge_hertz := flags.mel_upper_edge_hertz
  mel_non_zero_only := flags.mel_non_zero_only
  fft_magnitude_squared := flags.fft_magnitude_squared
  dct_num_features := flags.dct_num_features

/-- The front of the graph: the `Input` layer (id 0), the
`SpeechFeatures` layer applied to it (id 1), and
`tf.keras.backend.expand_dims` (id 2).  `sfT` and `sfF` are the frame
and feature counts of the SpeechFeatures output — the output shape of
the external feature-extraction collaborator, which this file does not
model internally (a stated non-goal of the spec). -/
def initState (sfT sfF : Nat) (flags : Flags) : BState :=
  let g0 : Graph := ⟨[]⟩
  let (g1, inId) := g0.addNode
    (.input [flags.desired_samples] flags.batch_size) []
    [flags.batch_size, flags.desired_samples]
  let (g2, sfId) := g1.addNode (.speechFeatures (sfParamsOf flags)) [inId]
    [flags.batch_size, sfT, sfF]
  let (g3, edId) := g2.addNode .expandDims [sfId]
    [flags.batch_size, sfT, sfF, 1]
  ⟨g3, edId, [flags.batch_size, sfT, sfF, 1]⟩

/-- The embedding of `model(flags)`.  `sfT`/`sfF` parameterise the output
shape of the external SpeechFeatures layer (see `initState`).  Note the
source evaluates `ValueError('not supported RNN type ', flags.rnn_type)`
without `raise`: the constructed exception value is bound here and
discarded, exactly as in the Python, and the unsupported-type failure
actually comes from the dictionary lookup `rnn_types[flags.rnn_type]`
(a `KeyError`). -/
def model (sfT sfF : Nat) (flags : Flags) : Except ModelError KerasModel :=
  let _unraisedValueError : Option ModelError :=
    if (List.lookup flags.rnn_type rnn_types).isNone then
      some (ModelError.valueError "not supported RNN type ") else none
  match List.lookup flags.rnn_type rnn_types with
  | none => .error (.keyError flags.rnn_type)
  | some rnnT =>
    match parse flags.cnn_filters, parse flags.cnn_kernel_size,
        parse flags.cnn_act, parse flags.cnn_dilation_rate,
        parse flags.cnn_strides with
    | some cf, some ck, some ca, some cd, some cs =>
      match convStages (zip5 cf ck ca cd cs) (initState sfT sfF flags) with
      | .error e => .error e
      | .ok st1 =>
        match reshapeStep st1 with
        | .error e => .error e
        | .ok st2 =>
          match rnnStages rnnT flags.rnn_units flags.rnn_layers st2 with
          | .error e => .error e
          | .ok st3 =>
            match attentionStep st3 with
            | .error e => .error e
            | .ok st4 =>
              let st5 := dropoutStep flags.dropout1 st4
              match parse flags.units2, parse flags.act2 with
              | some u2, some a2 =>
                match denseStages (List.zip u2 a2) st5 with
                | .error e => .error e
                | .ok st6 =>
                  let st7 := finalDenseStep flags.label_count st6
                  .ok ⟨st7.g, 0, st7.tid⟩
              | _, _ => .error (.parseError "units2/act2")
    | _, _, _, _, _ => .error (.parseError "cnn hyperparameters")

/-! Section: Observation functions on the constructed graph -/

/-- The kind of a layer, forgetting its hyperparameters. -/
inductive LayerKind where
  | input
  | speechFeatures
  | expandDims
  | conv2D
  | batchNormalization
  | reshape
  | bidirectional
  | sliceMiddle
  | dense
  | dot
  | softmax
  | dropout
deriving DecidableEq, Repr

/-- Forget a layer's hyperparameters. -/
def Layer.kind : Layer → LayerKind
  | .input .. => .input
  | .speechFeatures .. => .speechFeatures
  | .expandDims => .expandDims
  | .conv2D .. => .conv2D
  | .batchNormalization => .batchNormalization
  | .reshape .. => .reshape
  | .bidirectional .. => .bidirectional
  | .sliceMiddle .. => .sliceMiddle
  | .dense .. => .dense
  | .dot .. => .dot
  | .softmax .. => .softmax
  | .dropout .. => .dropout

/-- The sequence of layer kinds of a graph, in construction order. -/
def Graph.kinds (g : Graph) : List LayerKind :=
  g.nodes.map fun n => n.layer.kind

/-- A hidden `Dense` layer of the `units2`/`act2` loop: the only `Dense`
layers built with an explicit activation argument. -/
def Node.isHiddenDense (n : Node) : Bool :=
  match n.layer with
  | .dense _ (some _) => true
  | _ => false

/-- A node only consumes tensors produced strictly before it. -/
def Node.acyclicAt (n : Node) : Prop := ∀ i ∈ n.inputs, i < n.id

/-- Every node of the graph only consumes earlier tensors; since nodes
are listed in construction order, this property also holds of every
prefix of the node list, i.e. after every layer-adding step. -/
def Graph.acyclic (g : Graph) : Prop := ∀ n ∈ g.nodes, n.acyclicAt

/-! Section: Builder invariants -/

/-- Invariant threaded through graph construction: the graph is acyclic,
node ids are positions, the current tensor is the last node added, and
the tracked shape is that node's output shape. -/
structure BInv (st : BState) : Prop where
  acyclic : st.g.acyclic
  ids : ∀ k : Nat, ∀ h : k < st.g.nodes.length, (st.g.nodes.get ⟨k, h⟩).id = k
  chain : st.tid + 1 = st.g.nodes.length
  lastSh : ∃ n, st.g.nodes.getLast? = some n ∧ n.outShape = st.sh ∧
    n.id = st.tid

/-- The node appended by `Graph.addNode`. -/
def newNode (g : Graph) (l : Layer) (ins : List Nat) (sh : List Nat) :
    Node :=
  ⟨g.nodes.length, l, ins, sh⟩

theorem addNode_fst (g : Graph) (l : Layer) (ins : List Nat)
    (sh : List Nat) :
    (g.addNode l ins sh).1.nodes = g.nodes ++ [newNode g l ins sh] := rfl

theorem addNode_snd (g : Graph) (l : Layer) (ins : List Nat)
    (sh : List Nat) : (g.addNode l ins sh).2 = g.nodes.length := rfl

theorem acyclic_append {g : Graph} {l : Layer} {ins sh : List Nat}
    (hg : g.acyclic) (hins : ∀ i ∈ ins, i < g.nodes.length) :
    Graph.acyclic ⟨g.nodes ++ [newNode g l ins sh]⟩ := by
  intro n hn
  rcases List.mem_append.mp hn with h | h
  · exact hg n h
  · rcases List.mem_singleton.mp h with rfl
    exact hins

theorem ids_append {g : Graph} {l : Layer} {ins sh : List Nat}
    (hg : ∀ k : Nat, ∀ h : k < g.nodes.length,
      (g.nodes.get ⟨k, h⟩).id = k) :
    ∀ k : Nat,
      ∀ h : k < (g.nodes ++ [newNode g l ins sh]).length,
        ((g.nodes ++ [newNode g l ins sh]).get ⟨k, h⟩).id = k := by
  intro k h
  rcases Nat.lt_or_ge k g.nodes.length with hk | hk
  · rw [List.get_append _ hk]
    exact hg k hk
  · have hlen : (g.nodes ++ [newNode g l ins sh]).length =
        g.nodes.length + 1 := by simp
    have hk' : k = g.nodes.length := by omega
    subst hk'
    simp [List.get_append_right, Nat.sub_self, newNode]

/-- Appending one node whose inputs point strictly below the append
position preserves the builder invariant. -/
theorem BInv.step {st : BState} (hinv : BInv st) (l : Layer)
    (ins sh : List Nat) (hins : ∀ i ∈ ins, i < st.g.nodes.length) :
    BInv ⟨(st.g.addNode l ins sh).1, (st.g.addNode l ins sh).2, sh⟩ := by
  refine ⟨?_, ?_, ?_, ?_⟩
  · exact acyclic_append hinv.acyclic hins
  · exact ids_append hinv.ids
  · simp [Graph.addNode]
  · refine ⟨newNode st.g l ins sh, ?_, rfl, rfl⟩
    simp [Graph.addNode, newNode, addNode_snd]

/-- The common special case: the single input is the current tensor. -/
theorem BInv.stepTid {st : BState} (hinv : BInv st) (l : Layer)
    (sh : List Nat) :
    BInv ⟨(st.g.addNode l [st.tid] sh).1, (st.g.addNode l [st.tid] sh).2,
      sh⟩ := by
  refine hinv.step l [st.tid] sh ?_
  intro i hi
  rcases List.mem_singleton.mp hi with rfl
  have := hinv.chain
  omega

/-- A two-input layer application: the current tensor plus an older
tensor `j`. -/
theorem BInv.stepPair {st : BState} (hinv : BInv st) (l : Layer) (j : Nat)
    (hj : j < st.g.nodes.length) (sh : List Nat) :
    BInv ⟨(st.g.addNode l [st.tid, j] sh).1,
      (st.g.addNode l [st.tid, j] sh).2, sh⟩ := by
  refine hinv.step l [st.tid, j] sh ?_
  intro i hi
  have := hinv.chain
  rcases List.mem_cons.mp hi with rfl | hi
  · omega
  · rcases List.mem_singleton.mp hi with rfl
    exact hj

@[simp] theorem addNode_length (g : Graph) (l : Layer) (ins : List Nat)
    (sh : List Nat) :
    (g.addNode l ins sh).1.nodes.length = g.nodes.length + 1 := by
  simp [Graph.addNode]

/-- The three nodes `initState` builds, with explicit positions. -/
theorem initState_nodes (sfT sfF : Nat) (flags : Flags) :
    (initState sfT sfF flags).g.nodes =
      [⟨0, .input [flags.desired_samples] flags.batch_size, [],
          [flags.batch_size, flags.desired_samples]⟩,
        ⟨1, .speechFeatures (sfParamsOf flags), [0],
          [flags.batch_size, sfT, sfF]⟩,
        ⟨2, .expandDims, [1], [flags.batch_size, sfT, sfF, 1]⟩] := by
  simp [initState, Graph.addNode]

theorem initState_tid (sfT sfF : Nat) (flags : Flags) :
    (initState sfT sfF flags).tid = 2 := rfl

theorem initState_sh (sfT sfF : Nat) (flags : Flags) :
    (initState sfT sfF flags).sh = [flags.batch_size, sfT, sfF, 1] := rfl

theorem initState_inv (sfT sfF : Nat) (flags : Flags) :
    BInv (initState sfT sfF flags) := by
  refine ⟨?_, ?_, ?_, ?_⟩
  · intro n hn
    rw [initState_nodes] at hn
    simp only [List.mem_cons, List.not_mem_nil, or_false] at hn
    rcases hn with rfl | rfl | rfl
    · intro i hi
      simp at hi
    · intro i hi
      simp only [List.mem_singleton] at hi
      subst hi
      exact Nat.one_pos
    · intro i hi
      simp only [List.mem_singleton] at hi
      subst hi
      exact Nat.one_lt_two
  · intro k h
    have h3 : k < 3 := by
      have := h
      rw [initState_nodes] at this
      simpa using this
    have hnodes := initState_nodes sfT sfF flags
    interval_cases k <;> simp [List.get_eq_getElem, hnodes]
  · rfl
  · exact ⟨_, rfl, rfl, rfl⟩

/-! Section: Characterization of each construction section -/

/-- Layer kinds contributed by `n` Conv2D + BatchNormalization stages. -/
def convBlockKinds : Nat → List LayerKind
  | 0 => []
  | n + 1 => .conv2D :: .batchNormalization :: convBlockKinds n

theorem convStage_ok {p : ConvP} {st st' : BState}
    (h : convStage p st = .ok st') (hinv : BInv st) :
    BInv st' ∧ ∃ ext : List Node, st'.g.nodes = st.g.nodes ++ ext ∧
      ext.map (fun n => n.layer.kind) =
        [LayerKind.conv2D, LayerKind.batchNormalization] ∧
      (∀ b rest, st.sh = b :: rest → ∃ rest', st'.sh = b :: rest') := by
  unfold convStage at h
  split at h
  case h_2 => exact absurd h (by simp)
  case h_1 b t f c hsh =>
    split at h
    case h_2 => exact absurd h (by simp)
    case h_1 nf s1 s2 hnf hs =>
      cases h
      set L : Layer := Layer.conv2D p.filters p.kernel_size p.activation
        p.dilation_rate p.strides "same" with hL
      set outSh : List Nat := [b, sameOut t s1, sameOut f s2, nf] with hOut
      have h1 : BInv ⟨(st.g.addNode L [st.tid] outSh).1,
          (st.g.addNode L [st.tid] outSh).2, outSh⟩ := hinv.stepTid L outSh
      have h2 := h1.stepTid Layer.batchNormalization outSh
      refine ⟨h2,
        ⟨[newNode st.g L [st.tid] outSh,
          newNode (st.g.addNode L [st.tid] outSh).1 Layer.batchNormalization
            [(st.g.addNode L [st.tid] outSh).2] outSh], ?_, rfl, ?_⟩⟩
      · simp [Graph.addNode, newNode]
      · intro b' rest hb
        rw [hsh] at hb
        cases hb
        exact ⟨_, rfl⟩

theorem convStages_ok : ∀ (ps : List ConvP) {st st' : BState},
    convStages ps st = .ok st' → BInv st →
    BInv st' ∧ ∃ ext : List Node, st'.g.nodes = st.g.nodes ++ ext ∧
      ext.map (fun n => n.layer.kind) = convBlockKinds ps.length ∧
      (∀ b rest, st.sh = b :: rest → ∃ rest', st'.sh = b :: rest')
  | [], st, st', h, hinv => by
    unfold convStages at h
    cases h
    exact ⟨hinv, [], by simp, rfl, fun b rest hb => ⟨rest, hb⟩⟩
  | p :: ps, st, st', h, hinv => by
    unfold convStages at h
    cases hc : convStage p st with
    | error e => rw [hc] at h; exact absurd h (by simp)
    | ok st1 =>
      rw [hc] at h
      obtain ⟨hinv1, ext1, hn1, hk1, hh1⟩ := convStage_ok hc hinv
      obtain ⟨hinv2, ext2, hn2, hk2, hh2⟩ := convStages_ok ps h hinv1
      refine ⟨hinv2, ext1 ++ ext2, ?_, ?_, ?_⟩
      · rw [hn2, hn1, List.append_assoc]
      · simp only [List.map_append, hk1, hk2, convBlockKinds,
          List.length_cons]
        rfl
      · intro b rest hb
        obtain ⟨r1, hr1⟩ := hh1 b rest hb
        exact hh2 b r1 hr1

theorem reshapeStep_ok {st st' : BState}
    (h : reshapeStep st = .ok st') (hinv : BInv st) :
    BInv st' ∧ ∃ b t f c, st.sh = [b, t, f, c] ∧ f * c ≠ 0 ∧
      st'.g.nodes = st.g.nodes ++
        [newNode st.g (.reshape [-1, (f * c : Int)]) [st.tid]
          [b, t * f * c / (f * c), f * c]] ∧
      st'.sh = [b, t * f * c / (f * c), f * c] := by
  unfold reshapeStep at h
  split at h
  case h_2 => exact absurd h (by simp)
  case h_1 b t f c hsh =>
    split at h
    · exact absurd h (by simp)
    case isFalse hzero =>
      cases h
      have h1 := hinv.stepTid (Layer.reshape [-1, (f * c : Int)])
        [b, t * f * c / (f * c), f * c]
      exact ⟨h1, b, t, f, c, hsh, hzero,
        by simp [Graph.addNode, newNode], rfl⟩

theorem rnnStage_ok {r : RnnType} {u : Nat} {st st' : BState}
    (h : rnnStage r u st = .ok st') (hinv : BInv st) :
    BInv st' ∧ ∃ b t f, st.sh = [b, t, f] ∧
      st'.g.nodes = st.g.nodes ++
        [newNode st.g (.bidirectional r u true true) [st.tid]
          [b, t, 2 * u]] ∧
      st'.sh = [b, t, 2 * u] := by
  unfold rnnStage at h
  split at h
  case h_2 => exact absurd h (by simp)
  case h_1 b t f hsh =>
    cases h
    have h1 := hinv.stepTid (Layer.bidirectional r u true true)
      [b, t, 2 * u]
    exact ⟨h1, b, t, f, hsh, by simp [Graph.addNode, newNode], rfl⟩

theorem rnnStages_ok {r : RnnType} {u : Nat} : ∀ (n : Nat) {st st' : BState},
    rnnStages r u n st = .ok st' → BInv st →
    BInv st' ∧ ∃ ext : List Node, st'.g.nodes = st.g.nodes ++ ext ∧
      ext.map (fun nd => nd.layer) =
        List.replicate n (Layer.bidirectional r u true true) ∧
      (∀ b rest, st.sh = b :: rest → ∃ rest', st'.sh = b :: rest')
  | 0, st, st', h, hinv => by
    unfold rnnStages at h
    cases h
    exact ⟨hinv, [], by simp, rfl, fun b rest hb => ⟨rest, hb⟩⟩
  | n + 1, st, st', h, hinv => by
    unfold rnnStages at h
    cases hc : rnnStage r u st with
    | error e => rw [hc] at h; exact absurd h (by simp)
    | ok st1 =>
      rw [hc] at h
      obtain ⟨hinv1, b, t, f, hsh, hn1, hsh1⟩ := rnnStage_ok hc hinv
      obtain ⟨hinv2, ext2, hn2, hk2, hh2⟩ := rnnStages_ok n h hinv1
      refine ⟨hinv2,
        newNode st.g (Layer.bidirectional r u true true) [st.tid]
          [b, t, 2 * u] :: ext2, ?_, ?_, ?_⟩
      · rw [hn2, hn1, List.append_assoc]
        rfl
      · simp only [List.map_cons, hk2, List.replicate_succ]
        rfl
      · intro b' rest hb
        rw [hsh] at hb
        obtain ⟨hb1, hb2⟩ := List.cons.inj hb
        subst hb1
        exact hh2 b (t :: 2 * u :: []) hsh1

theorem attentionStep_ok {st st' : BState}
    (h : attentionStep st = .ok st') (hinv : BInv st) :
    BInv st' ∧ ∃ b t f, st.sh = [b, t, f] ∧ t ≠ 0 ∧
      st'.g.nodes = st.g.nodes ++
        [⟨st.g.nodes.length, .sliceMiddle (t / 2), [st.tid], [b, f]⟩,
          ⟨st.g.nodes.length + 1, .dense f none, [st.g.nodes.length],
            [b, f]⟩,
          ⟨st.g.nodes.length + 2, .dot (1, 2),
            [st.g.nodes.length + 1, st.tid], [b, t]⟩,
          ⟨st.g.nodes.length + 3, .softmax "attSoftmax",
            [st.g.nodes.length + 2], [b, t]⟩,
          ⟨st.g.nodes.length + 4, .dot (1, 1),
            [st.g.nodes.length + 3, st.tid], [b, f]⟩] ∧
      st'.sh = [b, f] ∧ st'.tid = st.g.nodes.length + 4 := by
  unfold attentionStep at h
  split at h
  case h_2 => exact absurd h (by simp)
  case h_1 b t f hsh =>
    split at h
    · exact absurd h (by simp)
    case isFalse ht =>
      cases h
      have hchain := hinv.chain
      have h1 := hinv.stepTid (Layer.sliceMiddle (t / 2)) [b, f]
      have h2 := h1.stepTid (Layer.dense f none) [b, f]
      have h3 := h2.stepPair (Layer.dot (1, 2)) st.tid
        (by simp; omega) [b, t]
      have h4 := h3.stepTid (Layer.softmax "attSoftmax") [b, t]
      have h5 := h4.stepPair (Layer.dot (1, 1)) st.tid
        (by simp; omega) [b, f]
      refine ⟨h5, b, t, f, hsh, ht, ?_, rfl, ?_⟩
      · simp [Graph.addNode]
      · simp [Graph.addNode]

theorem dropoutStep_ok (rate : Rat) (st : BState) (hinv : BInv st) :
    BInv (dropoutStep rate st) ∧
      (dropoutStep rate st).g.nodes = st.g.nodes ++
        [newNode st.g (.dropout rate) [st.tid] st.sh] ∧
      (dropoutStep rate st).sh = st.sh := by
  exact ⟨hinv.stepTid _ _,
    by simp [dropoutStep, Graph.addNode, newNode], rfl⟩

theorem denseStage_ok {p : ParamVal × ParamVal} {st st' : BState}
    (h : denseStage p st = .ok st') (hinv : BInv st) :
    BInv st' ∧ ∃ u, p.1.asNat? = some u ∧
      st'.g.nodes = st.g.nodes ++
        [newNode st.g (.dense u (some p.2)) [st.tid]
          (st.sh.dropLast ++ [u])] ∧
      st'.sh = st.sh.dropLast ++ [u] := by
  unfold denseStage at h
  split at h
  case h_2 => exact absurd h (by simp)
  case h_1 u hu =>
    cases h
    have h1 := hinv.stepTid (Layer.dense u (some p.2))
      (st.sh.dropLast ++ [u])
    exact ⟨h1, u, hu, by simp [Graph.addNode, newNode], rfl⟩

theorem denseStages_ok :
    ∀ (ps : List (ParamVal × ParamVal)) {st st' : BState},
    denseStages ps st = .ok st' → BInv st →
    BInv st' ∧ ∃ ext : List Node, st'.g.nodes = st.g.nodes ++ ext ∧
      ext.map (fun nd => nd.layer.kind) =
        List.replicate ps.length LayerKind.dense ∧
      (∀ nd ∈ ext, nd.isHiddenDense = true) ∧
      (∀ b x, st.sh = [b, x] → ∃ y, st'.sh = [b, y])
  | [], st, st', h, hinv => by
    unfold denseStages at h
    cases h
    exact ⟨hinv, [], by simp, rfl, by simp, fun b x hb => ⟨x, hb⟩⟩
  | p :: ps, st, st', h, hinv => by
    unfold denseStages at h
    cases hc : denseStage p st with
    | error e => rw [hc] at h; exact absurd h (by simp)
    | ok st1 =>
      rw [hc] at h
      obtain ⟨hinv1, u, hu, hn1, hsh1⟩ := denseStage_ok hc hinv
      obtain ⟨hinv2, ext2, hn2, hk2, hd2, hh2⟩ := denseStages_ok ps h hinv1
      refine ⟨hinv2,
        newNode st.g (Layer.dense u (some p.2)) [st.tid]
          (st.sh.dropLast ++ [u]) :: ext2, ?_, ?_, ?_, ?_⟩
      · rw [hn2, hn1, List.append_assoc]
        rfl
      · simp only [List.map_cons, hk2, List.replicate_succ]
        rfl
      · intro nd hnd
        rcases List.mem_cons.mp hnd with rfl | hnd
        · rfl
        · exact hd2 nd hnd
      · intro b x hb
        rw [hb] at hsh1
        exact hh2 b u (by simpa using hsh1)

/-- A successful run of `model` factors through the section builders. -/
theorem model_ok_elim {sfT sfF : Nat} {flags : Flags} {m : KerasModel}
    (h : model sfT sfF flags = .ok m) :
    ∃ rnnT cf ck ca cd cs st1 st2 st3 st4 u2 a2 st6,
      List.lookup flags.rnn_type rnn_types = some rnnT ∧
      parse flags.cnn_filters = some cf ∧
      parse flags.cnn_kernel_size = some ck ∧
      parse flags.cnn_act = some ca ∧
      parse flags.cnn_dilation_rate = some cd ∧
      parse flags.cnn_strides = some cs ∧
      convStages (zip5 cf ck ca cd cs) (initState sfT sfF flags) =
        .ok st1 ∧
      reshapeStep st1 = .ok st2 ∧
      rnnStages rnnT flags.rnn_units flags.rnn_layers st2 = .ok st3 ∧
      attentionStep st3 = .ok st4 ∧
      parse flags.units2 = some u2 ∧
      parse flags.act2 = some a2 ∧
      denseStages (List.zip u2 a2) (dropoutStep flags.dropout1 st4) =
        .ok st6 ∧
      m = ⟨(finalDenseStep flags.label_count st6).g, 0,
        (finalDenseStep flags.label_count st6).tid⟩ := by
  simp only [model] at h
  split at h
  case h_1 => exact absurd h (by simp)
  case h_2 rnnT hlook =>
    split at h
    case h_2 => exact absurd h (by simp)
    case h_1 cf ck ca cd cs hcf hck hca hcd hcs =>
      split at h
      case h_1 e => exact absurd h (by simp)
      case h_2 st1 hst1 =>
        split at h
        case h_1 e => exact absurd h (by simp)
        case h_2 st2 hst2 =>
          split at h
          case h_1 e => exact absurd h (by simp)
          case h_2 st3 hst3 =>
            split at h
            case h_1 e => exact absurd h (by simp)
            case h_2 st4 hst4 =>
              split at h
              case h_2 => exact absurd h (by simp)
              case h_1 u2 a2 hu2 ha2 =>
                split at h
                case h_1 e => exact absurd h (by simp)
                case h_2 st6 hst6 =>
                  cases h
                  exact ⟨rnnT, cf, ck, ca, cd, cs, st1, st2, st3, st4,
                    u2, a2, st6, hlook, hcf, hck, hca, hcd, hcs, hst1,
                    hst2, hst3, hst4, hu2, ha2, hst6, rfl⟩

/-! Section: Error characterization: graph-building failures after the RNN-type
lookup are layer errors, never `keyError` or `valueError`. -/

/-- Errors raised by TensorFlow layer machinery in the embedding. -/
def ModelError.isLayerErr : ModelError → Prop
  | .layerError _ => True
  | _ => False

theorem convStage_err {p : ConvP} {st : BState} {e : ModelError}
    (h : convStage p st = .error e) : e.isLayerErr := by
  unfold convStage at h
  split at h
  case h_2 => cases h; trivial
  case h_1 =>
    split at h
    case h_2 => cases h; trivial
    case h_1 => exact absurd h (by simp)

theorem convStages_err : ∀ (ps : List ConvP) {st : BState}
    {e : ModelError}, convStages ps st = .error e → e.isLayerErr
  | [], _, _, h => by
    unfold convStages at h
    exact absurd h (by simp)
  | p :: ps, st, e, h => by
    unfold convStages at h
    cases hc : convStage p st with
    | error e1 =>
      rw [hc] at h
      cases h
      exact convStage_err hc
    | ok st1 =>
      rw [hc] at h
      exact convStages_err ps h

theorem reshapeStep_err {st : BState} {e : ModelError}
    (h : reshapeStep st = .error e) : e.isLayerErr := by
  unfold reshapeStep at h
  split at h
  case h_2 => cases h; trivial
  case h_1 =>
    split at h
    · cases h; trivial
    · exact absurd h (by simp)

theorem rnnStage_err {r : RnnType} {u : Nat} {st : BState} {e : ModelError}
    (h : rnnStage r u st = .error e) : e.isLayerErr := by
  unfold rnnStage at h
  split at h
  case h_2 => cases h; trivial
  case h_1 => exact absurd h (by simp)

theorem rnnStages_err {r : RnnType} {u : Nat} : ∀ (n : Nat) {st : BState}
    {e : ModelError}, rnnStages r u n st = .error e → e.isLayerErr
  | 0, _, _, h => by
    unfold rnnStages at h
    exact absurd h (by simp)
  | n + 1, st, e, h => by
    unfold rnnStages at h
    cases hc : rnnStage r u st with
    | error e1 =>
      rw [hc] at h
      cases h
      exact rnnStage_err hc
    | ok st1 =>
      rw [hc] at h
      exact rnnStages_err n h

theorem attentionStep_err {st : BState} {e : ModelError}
    (h : attentionStep st = .error e) : e.isLayerErr := by
  unfold attentionStep at h
  split at h
  case h_2 => cases h; trivial
  case h_1 =>
    split at h
    · cases h; trivial
    · exact absurd h (by simp)

theorem denseStage_err {p : ParamVal × ParamVal} {st : BState}
    {e : ModelError} (h : denseStage p st = .error e) : e.isLayerErr := by
  unfold denseStage at h
  split at h
  case h_2 => cases h; trivial
  case h_1 => exact absurd h (by simp)

theorem denseStages_err : ∀ (ps : List (ParamVal × ParamVal)) {st : BState}
    {e : ModelError}, denseStages ps st = .error e → e.isLayerErr
  | [], _, _, h => by
    unfold denseStages at h
    exact absurd h (by simp)
  | p :: ps, st, e, h => by
    unfold denseStages at h
    cases hc : denseStage p st with
    | error e1 =>
      rw [hc] at h
      cases h
      exact denseStage_err hc
    | ok st1 =>
      rw [hc] at h
      exact denseStages_err ps h

/-- Once the RNN-type lookup has succeeded, any failure of `model` is a
parse error or a layer error — never a `keyError` or `valueError`. -/
theorem model_err_after_lookup {sfT sfF : Nat} {flags : Flags}
    {rnnT : RnnType} {e : ModelError}
    (hlook : List.lookup flags.rnn_type rnn_types = some rnnT)
    (h : model sfT sfF flags = .error e) :
    (∃ fld, e = .parseError fld) ∨ e.isLayerErr := by
  simp only [model, hlook] at h
  split at h
  case h_2 => cases h; exact Or.inl ⟨_, rfl⟩
  case h_1 =>
    split at h
    case h_1 e1 he1 => cases h; exact Or.inr (convStages_err _ he1)
    case h_2 st1 hst1 =>
      split at h
      case h_1 e1 he1 => cases h; exact Or.inr (reshapeStep_err he1)
      case h_2 st2 hst2 =>
        split at h
        case h_1 e1 he1 => cases h; exact Or.inr (rnnStages_err _ he1)
        case h_2 st3 hst3 =>
          split at h
          case h_1 e1 he1 => cases h; exact Or.inr (attentionStep_err he1)
          case h_2 st4 hst4 =>
            split at h
            case h_2 => cases h; exact Or.inl ⟨_, rfl⟩
            case h_1 u2 a2 hu2 ha2 =>
              split at h
              case h_1 e1 he1 =>
                cases h
                exact Or.inr (denseStages_err _ he1)
              case h_2 st6 hst6 => exact absurd h (by simp)

/-! Section: Counting helpers -/

theorem mem_convBlockKinds {k : LayerKind} : ∀ {n : Nat},
    k ∈ convBlockKinds n →
    k = LayerKind.conv2D ∨ k = LayerKind.batchNormalization := by
  intro n
  induction n with
  | zero => intro h; exact absurd h (by simp [convBlockKinds])
  | succ n ih =>
    intro h
    simp only [convBlockKinds, List.mem_cons] at h
    rcases h with rfl | rfl | h
    · exact Or.inl rfl
    · exact Or.inr rfl
    · exact ih h

theorem count_convBlockKinds_conv : ∀ n : Nat,
    (convBlockKinds n).count LayerKind.conv2D = n
  | 0 => rfl
  | n + 1 => by
    simp [convBlockKinds, List.count_cons, count_convBlockKinds_conv n]

theorem count_convBlockKinds_of_ne {k : LayerKind}
    (h1 : k ≠ LayerKind.conv2D) (h2 : k ≠ LayerKind.batchNormalization) :
    ∀ n : Nat, (convBlockKinds n).count k = 0
  | 0 => rfl
  | n + 1 => by
    simp [convBlockKinds, List.count_cons,
      count_convBlockKinds_of_ne h1 h2 n, h1, h2]

/-- A node whose layer kind is not `dense` is not a hidden dense layer. -/
theorem isHiddenDense_false_of_kind {nd : Node}
    (h : nd.layer.kind ≠ LayerKind.dense) : nd.isHiddenDense = false := by
  cases hl : nd.layer
  case dense u a => exact absurd (by rw [hl]; rfl) h
  all_goals simp [Node.isHiddenDense, hl]

theorem finalDenseStep_ok (lc : Nat) (st : BState) (hinv : BInv st) :
    BInv (finalDenseStep lc st) ∧
      (finalDenseStep lc st).g.nodes = st.g.nodes ++
        [newNode st.g (.dense lc none) [st.tid]
          (st.sh.dropLast ++ [lc])] ∧
      (finalDenseStep lc st).sh = st.sh.dropLast ++ [lc] ∧
      (finalDenseStep lc st).tid = st.g.nodes.length := by
  exact ⟨hinv.stepTid _ _,
    by simp [finalDenseStep, Graph.addNode, newNode], rfl, rfl⟩

/-! Section: The full structure of a successfully built graph -/

/-- The complete characterization of the graph a successful `model` call
builds: the audio input, the SpeechFeatures layer, `expand_dims`, the
Conv2D/BatchNormalization stages, the Reshape, the Bidirectional stack,
the five attention nodes, the Dropout, the hidden Dense stack and the
final Dense layer — with explicit wiring and positions throughout. -/
theorem model_ok_full {sfT sfF : Nat} {flags : Flags} {m : KerasModel}
    (h : model sfT sfF flags = .ok m) :
    ∃ (rnnT : RnnType) (cf ck ca cd cs u2 a2 : List ParamVal)
      (convExt rnnExt denseExt : List Node) (t f t0 k : Nat),
      List.lookup flags.rnn_type rnn_types = some rnnT ∧
      parse flags.cnn_filters = some cf ∧
      parse flags.cnn_kernel_size = some ck ∧
      parse flags.cnn_act = some ca ∧
      parse flags.cnn_dilation_rate = some cd ∧
      parse flags.cnn_strides = some cs ∧
      parse flags.units2 = some u2 ∧
      parse flags.act2 = some a2 ∧
      m.graph.nodes =
        [⟨0, .input [flags.desired_samples] flags.batch_size, [],
            [flags.batch_size, flags.desired_samples]⟩,
          ⟨1, .speechFeatures (sfParamsOf flags), [0],
            [flags.batch_size, sfT, sfF]⟩,
          ⟨2, .expandDims, [1], [flags.batch_size, sfT, sfF, 1]⟩] ++
        convExt ++
        [⟨3 + convExt.length, .reshape [-1, (k : Int)],
            [2 + convExt.length], [flags.batch_size, t0, k]⟩] ++
        rnnExt ++
        [⟨4 + convExt.length + rnnExt.length, .sliceMiddle (t / 2),
            [3 + convExt.length + rnnExt.length], [flags.batch_size, f]⟩,
          ⟨5 + convExt.length + rnnExt.length, .dense f none,
            [4 + convExt.length + rnnExt.length], [flags.batch_size, f]⟩,
          ⟨6 + convExt.length + rnnExt.length, .dot (1, 2),
            [5 + convExt.length + rnnExt.length,
              3 + convExt.length + rnnExt.length],
            [flags.batch_size, t]⟩,
          ⟨7 + convExt.length + rnnExt.length, .softmax "attSoftmax",
            [6 + convExt.length + rnnExt.length], [flags.batch_size, t]⟩,
          ⟨8 + convExt.length + rnnExt.length, .dot (1, 1),
            [7 + convExt.length + rnnExt.length,
              3 + convExt.length + rnnExt.length],
            [flags.batch_size, f]⟩,
          ⟨9 + convExt.length + rnnExt.length, .dropout flags.dropout1,
            [8 + convExt.length + rnnExt.length],
            [flags.batch_size, f]⟩] ++
        denseExt ++
        [⟨10 + convExt.length + rnnExt.length + denseExt.length,
            .dense flags.label_count none,
            [9 + convExt.length + rnnExt.length + denseExt.length],
            [flags.batch_size, flags.label_count]⟩] ∧
      m.inputId = 0 ∧
      m.outputId =
        10 + convExt.length + rnnExt.length + denseExt.length ∧
      m.graph.acyclic ∧
      convExt.map (fun nd => nd.layer.kind) =
        convBlockKinds (zip5 cf ck ca cd cs).length ∧
      rnnExt.map (fun nd => nd.layer) =
        List.replicate flags.rnn_layers
          (Layer.bidirectional rnnT flags.rnn_units true true) ∧
      denseExt.map (fun nd => nd.layer.kind) =
        List.replicate (List.zip u2 a2).length LayerKind.dense ∧
      (∀ nd ∈ denseExt, nd.isHiddenDense = true) ∧
      t ≠ 0 ∧
      (∃ encN : Node,
        (([⟨0, .input [flags.desired_samples] flags.batch_size, [],
            [flags.batch_size, flags.desired_samples]⟩,
          ⟨1, .speechFeatures (sfParamsOf flags), [0],
            [flags.batch_size, sfT, sfF]⟩,
          ⟨2, .expandDims, [1], [flags.batch_size, sfT, sfF, 1]⟩] :
            List Node) ++
          convExt ++
          ([⟨3 + convExt.length, .reshape [-1, (k : Int)],
              [2 + convExt.length], [flags.batch_size, t0, k]⟩] :
            List Node) ++
          rnnExt).getLast? = some encN ∧
        encN.id = 3 + convExt.length + rnnExt.length ∧
        encN.outShape = [flags.batch_size, t, f] ∧
        (0 < flags.rnn_layers →
          encN.layer =
            Layer.bidirectional rnnT flags.rnn_units true true)) := by
  obtain ⟨rnnT, cf, ck, ca, cd, cs, st1, st2, st3, st4, u2, a2, st6,
    hlook, hcf, hck, hca, hcd, hcs, hst1, hst2, hst3, hst4, hu2, ha2,
    hst6, hmEq⟩ := model_ok_elim h
  have hinv0 := initState_inv sfT sfF flags
  obtain ⟨hinv1, convExt, hn1, hk1, hh1⟩ :=
    convStages_ok (zip5 cf ck ca cd cs) hst1 hinv0
  obtain ⟨hinv2, b2, t2, f2, c2, hsh1eq, hnz, hn2, hsh2⟩ :=
    reshapeStep_ok hst2 hinv1
  obtain ⟨hinv3, rnnExt, hn3, hk3, hh3⟩ :=
    rnnStages_ok flags.rnn_layers hst3 hinv2
  obtain ⟨hinv4, b3, t3, f3, hsh3eq, ht3, hn4, hsh4, htid4⟩ :=
    attentionStep_ok hst4 hinv3
  obtain ⟨hinv5, hn5, hsh5⟩ := dropoutStep_ok flags.dropout1 st4 hinv4
  obtain ⟨hinv6, denseExt, hn6, hk6, hd6, hh6⟩ :=
    denseStages_ok (List.zip u2 a2) hst6 hinv5
  obtain ⟨hinv7, hn7, hsh7, htid7⟩ :=
    finalDenseStep_ok flags.label_count st6 hinv6
  -- the head of every tracked shape is the batch size
  obtain ⟨r1, hr1⟩ := hh1 flags.batch_size [sfT, sfF, 1] (initState_sh _ _ _)
  have hb2 : b2 = flags.batch_size := by
    rw [hsh1eq] at hr1
    exact (List.cons.inj hr1).1
  subst hb2
  obtain ⟨r3, hr3⟩ := hh3 flags.batch_size _ hsh2
  have hb3 : b3 = flags.batch_size := by
    rw [hsh3eq] at hr3
    exact (List.cons.inj hr3).1
  subst hb3
  obtain ⟨y6, hy6⟩ := hh6 flags.batch_size f3 (hsh5.trans hsh4)
  -- length and tensor-id bookkeeping
  have hL1 : st1.g.nodes.length = 3 + convExt.length := by
    simp only [hn1, initState_nodes, List.length_append, List.length_cons,
      List.length_nil]
  have hL2 : st2.g.nodes.length = 4 + convExt.length := by
    simp only [hn2, List.length_append, List.length_cons, List.length_nil,
      hL1]
    omega
  have hL3 : st3.g.nodes.length =
      4 + convExt.length + rnnExt.length := by
    simp only [hn3, List.length_append, hL2]
  have hL4 : st4.g.nodes.length =
      9 + convExt.length + rnnExt.length := by
    simp only [hn4, List.length_append, List.length_cons, List.length_nil,
      hL3]
    omega
  have hL5 : (dropoutStep flags.dropout1 st4).g.nodes.length =
      10 + convExt.length + rnnExt.length := by
    simp only [hn5, List.length_append, List.length_cons, List.length_nil,
      hL4]
    omega
  have hL6 : st6.g.nodes.length =
      10 + convExt.length + rnnExt.length + denseExt.length := by
    simp only [hn6, List.length_append, hL5]
  have hT1 : st1.tid = 2 + convExt.length := by
    have := hinv1.chain
    omega
  have hT3 : st3.tid = 3 + convExt.length + rnnExt.length := by
    have := hinv3.chain
    omega
  have hT4 : st4.tid = 8 + convExt.length + rnnExt.length := by
    rw [htid4, hL3]
    omega
  have hT5 : (dropoutStep flags.dropout1 st4).tid =
      9 + convExt.length + rnnExt.length := by
    have := hinv5.chain
    omega
  have hT6 : st6.tid =
      9 + convExt.length + rnnExt.length + denseExt.length := by
    have := hinv6.chain
    omega
  refine ⟨rnnT, cf, ck, ca, cd, cs, u2, a2, convExt, rnnExt, denseExt,
    t3, f3, t2 * f2 * c2 / (f2 * c2), f2 * c2,
    hlook, hcf, hck, hca, hcd, hcs, hu2, ha2, ?_, ?_, ?_, ?_,
    hk1, hk3, hk6, hd6, ht3, ?_⟩
  · -- the node-list decomposition
    rw [hmEq]
    show (finalDenseStep flags.label_count st6).g.nodes = _
    rw [hn7, hn6, hn5, hn4, hn3, hn2, hn1, initState_nodes]
    simp only [newNode, hL1, hL3, hL4, hL6, hT1, hT3, hT4, hT6,
      hsh4, hy6]
    simp [List.append_assoc]
    omega
  · rw [hmEq]
  · rw [hmEq]
    show (finalDenseStep flags.label_count st6).tid = _
    rw [htid7, hL6]
  · rw [hmEq]
    exact hinv7.acyclic
  · -- the encoder-output node the attention head reads
    obtain ⟨encN, hgl, hensh, henid⟩ := hinv3.lastSh
    have hpre : st3.g.nodes =
        [⟨0, .input [flags.desired_samples] flags.batch_size, [],
            [flags.batch_size, flags.desired_samples]⟩,
          ⟨1, .speechFeatures (sfParamsOf flags), [0],
            [flags.batch_size, sfT, sfF]⟩,
          ⟨2, .expandDims, [1], [flags.batch_size, sfT, sfF, 1]⟩] ++
          convExt ++
          [⟨3 + convExt.length, .reshape [-1, ((f2 * c2 : Nat) : Int)],
              [2 + convExt.length],
              [flags.batch_size, t2 * f2 * c2 / (f2 * c2), f2 * c2]⟩] ++
          rnnExt := by
      rw [hn3, hn2, hn1, initState_nodes]
      simp only [newNode, hL1, hT1]
      simp [List.append_assoc]
    refine ⟨encN, ?_, ?_, ?_, ?_⟩
    · rw [← hpre]
      exact hgl
    · rw [henid, hT3]
    · rw [hensh, hsh3eq]
    · intro hpos
      have hne : rnnExt ≠ [] := by
        intro hcon
        rw [hcon] at hk3
        have h0 := congrArg List.length hk3
        simp at h0
        omega
      have hgl3 : st3.g.nodes.getLast? = rnnExt.getLast? := by
        rw [hn3]
        exact List.getLast?_append_of_ne_nil _ hne
      have hmemExt : encN ∈ rnnExt := by
        refine List.mem_of_mem_getLast? ?_
        rw [← hgl3]
        exact hgl
      have : encN.layer ∈ rnnExt.map (fun nd => nd.layer) :=
        List.mem_map_of_mem _ hmemExt
      rw [hk3] at this
      exact List.eq_of_mem_replicate this

/-! Section: The hyperparameters registered by `model_parameters` -/

/-- The argparse `type=` of a registered hyperparameter. -/
inductive ArgType where
  | str
  | int
  | float
deriving DecidableEq, Repr

/-- An argparse default value (floats modelled as rationals). -/
inductive ArgDefault where
  | str (v : String)
  | int (v : Int)
  | float (v : Rat)
deriving DecidableEq, Repr

/-- One `parser_nn.add_argument(...)` registration. -/
structure ArgSpec where
  argName : String
  type : ArgType
  default : Option ArgDefault
  help : String
deriving DecidableEq, Repr

/-- The eleven `add_argument` calls of `model_parameters`, in source
order, with the exact names, types, defaults and help strings. -/
def model_parameters : List ArgSpec :=
  [⟨"--cnn_filters", .str, some (.str "10,1"),
      "Number of output filters in the convolution layers"⟩,
    ⟨"--cnn_kernel_size", .str, some (.str "(5,1),(5,1)"),
      "Heights and widths of the 2D convolution window"⟩,
    ⟨"--cnn_act", .str, some (.str "'relu','relu'"),
      "Activation function in the convolution layers"⟩,
    ⟨"--cnn_dilation_rate", .str, some (.str "(1,1),(1,1)"),
      "Dilation rate to use for dilated convolutions"⟩,
    ⟨"--cnn_strides", .str, some (.str "(1,1),(1,1)"),
      "Strides of the convolution layers along the height and width"⟩,
    ⟨"--rnn_layers", .int, some (.int 2),
      "number of RNN layers (each RNN is wrapped by Bidirectional)"⟩,
    ⟨"--rnn_type", .str, some (.str "lstm"),
      "RNN type: it can be rnn or lstm"⟩,
    ⟨"--rnn_units", .int, some (.int 64), "units number in RNN cell"⟩,
    ⟨"--dropout1", .float, some (.float (1 / 2)),
      "Percentage of data dropped"⟩,
    ⟨"--units2", .str, some (.str "64,32"),
      "Number of units in the last set of hidden layers"⟩,
    ⟨"--act2", .str, some (.str "'relu','linear'"),
      "Activation function of the last set of hidden layers"⟩]

/-- Argparse semantics for an empty command line: every registered
argument is bound to its default value (or absent when it has none). -/
def parseNoArgs (args : List ArgSpec) : List (String × Option ArgDefault) :=
  args.map fun a => (a.argName, a.default)

/-! Section: A concrete configuration for witnesses -/

/-- The `model_parameters` defaults, together with representative values
for the framework-level flags (`desired_samples`, `batch_size`, the
SpeechFeatures settings and `label_count`). -/
def defaultFlags : Flags where
  desired_samples := 16000
  batch_size := 100
  window_size_ms := 40
  window_stride_ms := 20
  sample_rate := 16000
  use_tf_fft := false
  preemph := 0
  window_type := "hann"
  mel_num_bins := 40
  mel_lower_edge_hertz := 20
  mel_upper_edge_hertz := 7000
  mel_non_zero_only := true
  fft_magnitude_squared := false
  dct_num_features := 20
  cnn_filters := "10,1"
  cnn_kernel_size := "(5,1),(5,1)"
  cnn_act := "'relu','relu'"
  cnn_dilation_rate := "(1,1),(1,1)"
  cnn_strides := "(1,1),(1,1)"
  rnn_layers := 2
  rnn_type := "lstm"
  rnn_units := 64
  dropout1 := 1 / 2
  units2 := "64,32"
  act2 := "'relu','linear'"
  label_count := 12

/-- The model graph built on `defaultFlags`, with a 49-frame, 20-feature
SpeechFeatures output. -/
def defaultModelValue : KerasModel :=
  match model 49 20 defaultFlags with
  | .ok m => m
  | .error _ => ⟨⟨[]⟩, 0, 0⟩

theorem default_model_ok :
    model 49 20 defaultFlags = .ok defaultModelValue := by rfl

/-! Section: The claims -/

/-- Claim C3. Every hyperparameter `model_parameters` registers is
registered with a default value: the eleven `add_argument` calls are for
`cnn_filters`, `cnn_kernel_size`, `cnn_act`, `cnn_dilation_rate`,
`cnn_strides`, `rnn_layers`, `rnn_type`, `rnn_units`, `dropout1`,
`units2` and `act2`, each supplies a default, and parsing an empty
command line therefore binds every one of them to a value. -/
theorem C3_all_defaults :
    model_parameters.map (fun a => a.argName) =
      ["--cnn_filters", "--cnn_kernel_size", "--cnn_act",
        "--cnn_dilation_rate", "--cnn_strides", "--rnn_layers",
        "--rnn_type", "--rnn_units", "--dropout1", "--units2",
        "--act2"] ∧
    model_parameters.length = 11 ∧
    (∀ a ∈ model_parameters, a.default.isSome = true) ∧
    (∀ p ∈ parseNoArgs model_parameters, p.2.isSome = true) := by
  refine ⟨by rfl, by rfl, ?_, ?_⟩
  · intro a ha
    simp only [model_parameters, List.mem_cons, List.not_mem_nil,
      or_false] at ha
    rcases ha with rfl | rfl | rfl | rfl | rfl | rfl | rfl | rfl | rfl |
      rfl | rfl <;> rfl
  · intro p hp
    simp only [parseNoArgs, model_parameters, List.map_cons,
      List.map_nil, List.mem_cons, List.not_mem_nil, or_false] at hp
    rcases hp with rfl | rfl | rfl | rfl | rfl | rfl | rfl | rfl | rfl |
      rfl | rfl <;> rfl

/-- Claim C7. Graph construction is deterministic: `model` is a pure
function of its flags (and of the externally determined SpeechFeatures
output shape), so two calls with equal flags construct structurally
identical graphs — the same node list, hence the same sequence of layer
types with the same hyperparameters. -/
theorem C7_deterministic (sfT sfF : Nat) (f1 f2 : Flags) (h : f1 = f2) :
    model sfT sfF f1 = model sfT sfF f2 ∧
    (model sfT sfF f1).toOption.map (fun m => m.graph.nodes) =
      (model sfT sfF f2).toOption.map (fun m => m.graph.nodes) := by
  subst h
  exact ⟨rfl, rfl⟩

theorem C7_deterministic_witness :
    model 49 20 defaultFlags = model 49 20 defaultFlags ∧
    (model 49 20 defaultFlags).toOption.map (fun m => m.graph.nodes) =
      (model 49 20 defaultFlags).toOption.map (fun m => m.graph.nodes) :=
  C7_deterministic 49 20 defaultFlags defaultFlags rfl

/-- Claim C5. The computation graph `model` builds is acyclic: every node
consumes only tensors produced by strictly earlier nodes.  Because the
node list is in construction order, the same per-node property holds of
every prefix, i.e. after every layer-adding step. -/
theorem C5_acyclic {sfT sfF : Nat} {flags : Flags} {m : KerasModel}
    (h : model sfT sfF flags = .ok m) :
    m.graph.acyclic ∧
    ∀ pre post : List Node, m.graph.nodes = pre ++ post →
      ∀ nd ∈ pre, nd.acyclicAt := by
  obtain ⟨rnnT, cf, ck, ca, cd, cs, u2, a2, convExt, rnnExt, denseExt,
    t, f, t0, k, hlook, hcf, hck, hca, hcd, hcs, hu2, ha2, hnodes, hin,
    hout, hacyc, hkc, hkr, hkd, hhd, ht, encN, hgl, hid, hsh, hbid⟩ :=
    model_ok_full h
  refine ⟨hacyc, ?_⟩
  intro pre post hps nd hnd
  exact hacyc nd (by rw [hps]; exact List.mem_append_left _ hnd)

theorem C5_acyclic_witness :
    defaultModelValue.graph.acyclic ∧
    ∀ pre post : List Node,
      defaultModelValue.graph.nodes = pre ++ post →
      ∀ nd ∈ pre, nd.acyclicAt :=
  C5_acyclic default_model_ok

/-- Claim C4. On success `model` returns exactly one model value: its
input is the audio `Input` layer (node 0), its output is the final
`Dense(label_count)` layer (the last node built), and — the embedding
being a pure function into a graph value — construction performs no
training, execution or other side effect. -/
theorem C4_returns_one_model {sfT sfF : Nat} {flags : Flags}
    {m : KerasModel} (h : model sfT sfF flags = .ok m) :
    m.inputId = 0 ∧
    (∃ n0, m.graph.nodes.head? = some n0 ∧ n0.id = 0 ∧
      n0.layer = .input [flags.desired_samples] flags.batch_size) ∧
    m.outputId + 1 = m.graph.nodes.length ∧
    (∃ nf, m.graph.nodes.getLast? = some nf ∧ nf.id = m.outputId ∧
      nf.layer = .dense flags.label_count none) := by
  obtain ⟨rnnT, cf, ck, ca, cd, cs, u2, a2, convExt, rnnExt, denseExt,
    t, f, t0, k, hlook, hcf, hck, hca, hcd, hcs, hu2, ha2, hnodes, hin,
    hout, hacyc, hkc, hkr, hkd, hhd, ht, encN, hgl, hid, hsh, hbid⟩ :=
    model_ok_full h
  refine ⟨hin, ⟨_, by rw [hnodes]; rfl, rfl, rfl⟩, ?_, ?_⟩
  · rw [hout, hnodes]
    simp
    omega
  · refine ⟨_, by rw [hnodes]; exact List.getLast?_concat _, ?_, rfl⟩
    rw [hout]

theorem C4_returns_one_model_witness :
    defaultModelValue.inputId = 0 ∧
    (∃ n0, defaultModelValue.graph.nodes.head? = some n0 ∧ n0.id = 0 ∧
      n0.layer = .input [defaultFlags.desired_samples]
        defaultFlags.batch_size) ∧
    defaultModelValue.outputId + 1 =
      defaultModelValue.graph.nodes.length ∧
    (∃ nf, defaultModelValue.graph.nodes.getLast? = some nf ∧
      nf.id = defaultModelValue.outputId ∧
      nf.layer = .dense defaultFlags.label_count none) :=
  C4_returns_one_model default_model_ok

/-- Claim C10. The output layer of the returned model is a `Dense` layer
with exactly `flags.label_count` units and no activation function, so
the final output is a `[batch_size, label_count]` tensor of raw logits
with no softmax applied inside the graph. -/
theorem C10_raw_logits {sfT sfF : Nat} {flags : Flags} {m : KerasModel}
    (h : model sfT sfF flags = .ok m) :
    ∃ nf, m.graph.nodes.getLast? = some nf ∧
      nf.layer = .dense flags.label_count none ∧
      nf.outShape = [flags.batch_size, flags.label_count] ∧
      nf.id = m.outputId := by
  obtain ⟨rnnT, cf, ck, ca, cd, cs, u2, a2, convExt, rnnExt, denseExt,
    t, f, t0, k, hlook, hcf, hck, hca, hcd, hcs, hu2, ha2, hnodes, hin,
    hout, hacyc, hkc, hkr, hkd, hhd, ht, encN, hgl, hid, hsh, hbid⟩ :=
    model_ok_full h
  refine ⟨_, by rw [hnodes]; exact List.getLast?_concat _, rfl, rfl, ?_⟩
  rw [hout]

/-- The sequence of layer kinds of a successfully built graph. -/
theorem model_ok_kinds {sfT sfF : Nat} {flags : Flags} {m : KerasModel}
    (h : model sfT sfF flags = .ok m) :
    ∃ (cf ck ca cd cs u2 a2 : List ParamVal),
      parse flags.cnn_filters = some cf ∧
      parse flags.cnn_kernel_size = some ck ∧
      parse flags.cnn_act = some ca ∧
      parse flags.cnn_dilation_rate = some cd ∧
      parse flags.cnn_strides = some cs ∧
      parse flags.units2 = some u2 ∧
      parse flags.act2 = some a2 ∧
      m.graph.kinds =
        [.input, .speechFeatures, .expandDims] ++
        convBlockKinds (zip5 cf ck ca cd cs).length ++
        [.reshape] ++
        List.replicate flags.rnn_layers .bidirectional ++
        [.sliceMiddle, .dense, .dot, .softmax, .dot, .dropout] ++
        List.replicate (List.zip u2 a2).length .dense ++
        [.dense] := by
  obtain ⟨rnnT, cf, ck, ca, cd, cs, u2, a2, convExt, rnnExt, denseExt,
    t, f, t0, k, hlook, hcf, hck, hca, hcd, hcs, hu2, ha2, hnodes, hin,
    hout, hacyc, hkc, hkr, hkd, hhd, ht, encN, hgl, hid, hsh, hbid⟩ :=
    model_ok_full h
  have hkr' : rnnExt.map (fun nd => nd.layer.kind) =
      List.replicate flags.rnn_layers LayerKind.bidirectional := by
    have : rnnExt.map (fun nd => nd.layer.kind) =
        (rnnExt.map (fun nd => nd.layer)).map Layer.kind := by
      rw [List.map_map]
      rfl
    rw [this, hkr, List.map_replicate]
    rfl
  refine ⟨cf, ck, ca, cd, cs, u2, a2, hcf, hck, hca, hcd, hcs, hu2,
    ha2, ?_⟩
  rw [Graph.kinds, hnodes]
  simp only [List.map_append, hkc, hkr', hkd, List.map_cons,
    List.map_nil]
  simp [List.append_assoc, Layer.kind]

theorem C10_raw_logits_witness :
    ∃ nf, defaultModelValue.graph.nodes.getLast? = some nf ∧
      nf.layer = .dense defaultFlags.label_count none ∧
      nf.outShape =
        [defaultFlags.batch_size, defaultFlags.label_count] ∧
      nf.id = defaultModelValue.outputId :=
  C10_raw_logits default_model_ok

/-- Claim C2. For every flags input on which construction succeeds, the
layer graph has the stated architecture in the stated order: the
speech-features front-end on the audio input, one Conv2D plus
BatchNormalization per configured CNN stage, a reshape,
`flags.rnn_layers` recurrent layers each wrapped in Bidirectional, the
attention pooling head (middle-slice, query Dense, Dot, Softmax, Dot),
dropout, the hidden Dense layers, and a last Dense layer with
`flags.label_count` units. -/
theorem C2_layer_architecture {sfT sfF : Nat} {flags : Flags}
    {m : KerasModel} (h : model sfT sfF flags = .ok m) :
    ∃ (cf ck ca cd cs u2 a2 : List ParamVal),
      parse flags.cnn_filters = some cf ∧
      parse flags.cnn_kernel_size = some ck ∧
      parse flags.cnn_act = some ca ∧
      parse flags.cnn_dilation_rate = some cd ∧
      parse flags.cnn_strides = some cs ∧
      parse flags.units2 = some u2 ∧
      parse flags.act2 = some a2 ∧
      m.graph.kinds =
        [.input, .speechFeatures, .expandDims] ++
        convBlockKinds (zip5 cf ck ca cd cs).length ++
        [.reshape] ++
        List.replicate flags.rnn_layers .bidirectional ++
        [.sliceMiddle, .dense, .dot, .softmax, .dot, .dropout] ++
        List.replicate (List.zip u2 a2).length .dense ++
        [.dense] ∧
      (∃ nf, m.graph.nodes.getLast? = some nf ∧
        nf.layer = .dense flags.label_count none) := by
  obtain ⟨cf, ck, ca, cd, cs, u2, a2, hcf, hck, hca, hcd, hcs, hu2,
    ha2, hkinds⟩ := model_ok_kinds h
  obtain ⟨rnnT, cf', ck', ca', cd', cs', u2', a2', convExt, rnnExt,
    denseExt, t, f, t0, k, hlook, hcf', hck', hca', hcd', hcs', hu2',
    ha2', hnodes, hin, hout, hacyc, hkc, hkr, hkd, hhd, ht, encN, hgl,
    hid, hsh, hbid⟩ := model_ok_full h
  exact ⟨cf, ck, ca, cd, cs, u2, a2, hcf, hck, hca, hcd, hcs, hu2, ha2,
    hkinds, _, by rw [hnodes]; exact List.getLast?_concat _, rfl⟩

theorem C2_layer_architecture_witness :
    ∃ (cf ck ca cd cs u2 a2 : List ParamVal),
      parse defaultFlags.cnn_filters = some cf ∧
      parse defaultFlags.cnn_kernel_size = some ck ∧
      parse defaultFlags.cnn_act = some ca ∧
      parse defaultFlags.cnn_dilation_rate = some cd ∧
      parse defaultFlags.cnn_strides = some cs ∧
      parse defaultFlags.units2 = some u2 ∧
      parse defaultFlags.act2 = some a2 ∧
      defaultModelValue.graph.kinds =
        [.input, .speechFeatures, .expandDims] ++
        convBlockKinds (zip5 cf ck ca cd cs).length ++
        [.reshape] ++
        List.replicate defaultFlags.rnn_layers .bidirectional ++
        [.sliceMiddle, .dense, .dot, .softmax, .dot, .dropout] ++
        List.replicate (List.zip u2 a2).length .dense ++
        [.dense] ∧
      (∃ nf, defaultModelValue.graph.nodes.getLast? = some nf ∧
        nf.layer = .dense defaultFlags.label_count none) :=
  C2_layer_architecture default_model_ok

/-- Claim C6. `model` delegates feature extraction entirely to the
external SpeechFeatures collaborator: node 1 of the graph is a single
`SpeechFeatures` layer applied directly to the audio input (node 0),
each of its twelve keyword arguments is the corresponding flag field
unchanged, and no other node of the graph is a SpeechFeatures layer. -/
theorem C6_delegates_feature_extraction {sfT sfF : Nat} {flags : Flags}
    {m : KerasModel} (h : model sfT sfF flags = .ok m) :
    m.graph.nodes[1]? = some ⟨1, .speechFeatures
      ⟨flags.window_size_ms, flags.window_stride_ms, flags.sample_rate,
        flags.use_tf_fft, flags.preemph, flags.window_type,
        flags.mel_num_bins, flags.mel_lower_edge_hertz,
        flags.mel_upper_edge_hertz, flags.mel_non_zero_only,
        flags.fft_magnitude_squared, flags.dct_num_features⟩,
      [0], [flags.batch_size, sfT, sfF]⟩ ∧
    m.graph.kinds.count LayerKind.speechFeatures = 1 := by
  obtain ⟨cf, ck, ca, cd, cs, u2, a2, hcf, hck, hca, hcd, hcs, hu2,
    ha2, hkinds⟩ := model_ok_kinds h
  obtain ⟨rnnT, cf', ck', ca', cd', cs', u2', a2', convExt, rnnExt,
    denseExt, t, f, t0, k, hlook, hcf', hck', hca', hcd', hcs', hu2',
    ha2', hnodes, hin, hout, hacyc, hkc, hkr, hkd, hhd, ht, encN, hgl,
    hid, hsh, hbid⟩ := model_ok_full h
  constructor
  · rw [hnodes]
    rfl
  · rw [hkinds]
    simp [List.count_append, List.count_cons, List.count_replicate,
      @count_convBlockKinds_of_ne LayerKind.speechFeatures (by simp)
        (by simp)]

theorem C6_delegates_feature_extraction_witness :
    defaultModelValue.graph.nodes[1]? = some ⟨1, .speechFeatures
      ⟨defaultFlags.window_size_ms, defaultFlags.window_stride_ms,
        defaultFlags.sample_rate, defaultFlags.use_tf_fft,
        defaultFlags.preemph, defaultFlags.window_type,
        defaultFlags.mel_num_bins, defaultFlags.mel_lower_edge_hertz,
        defaultFlags.mel_upper_edge_hertz,
        defaultFlags.mel_non_zero_only,
        defaultFlags.fft_magnitude_squared,
        defaultFlags.dct_num_features⟩,
      [0], [defaultFlags.batch_size, 49, 20]⟩ ∧
    defaultModelValue.graph.kinds.count LayerKind.speechFeatures = 1 :=
  C6_delegates_feature_extraction default_model_ok

/-- Claim C9. The number of Conv2D stages equals the minimum of the
lengths of the five parsed CNN hyperparameter lists, and the number of
hidden Dense layers equals the minimum of the lengths of the parsed
`units2` and `act2` lists: Python's `zip` silently truncates to the
shortest list. -/
theorem C9_zip_truncates {sfT sfF : Nat} {flags : Flags}
    {m : KerasModel} (h : model sfT sfF flags = .ok m) :
    ∃ (cf ck ca cd cs u2 a2 : List ParamVal),
      parse flags.cnn_filters = some cf ∧
      parse flags.cnn_kernel_size = some ck ∧
      parse flags.cnn_act = some ca ∧
      parse flags.cnn_dilation_rate = some cd ∧
      parse flags.cnn_strides = some cs ∧
      parse flags.units2 = some u2 ∧
      parse flags.act2 = some a2 ∧
      m.graph.kinds.count LayerKind.conv2D =
        ((((cf.length.min ck.length).min ca.length).min
          cd.length).min cs.length) ∧
      m.graph.nodes.countP Node.isHiddenDense =
        u2.length.min a2.length := by
  obtain ⟨cf, ck, ca, cd, cs, u2, a2, hcf, hck, hca, hcd, hcs, hu2,
    ha2, hkinds⟩ := model_ok_kinds h
  obtain ⟨rnnT, cf', ck', ca', cd', cs', u2', a2', convExt, rnnExt,
    denseExt, t, f, t0, k, hlook, hcf', hck', hca', hcd', hcs', hu2',
    ha2', hnodes, hin, hout, hacyc, hkc, hkr, hkd, hhd, ht, encN, hgl,
    hid, hsh, hbid⟩ := model_ok_full h
  have hu2eq : u2' = u2 := Option.some.inj (hu2'.symm.trans hu2)
  have ha2eq : a2' = a2 := Option.some.inj (ha2'.symm.trans ha2)
  rw [hu2eq, ha2eq] at hkd
  refine ⟨cf, ck, ca, cd, cs, u2, a2, hcf, hck, hca, hcd, hcs, hu2,
    ha2, ?_, ?_⟩
  · rw [hkinds, ← zip5_length cf ck ca cd cs]
    simp [List.count_append, List.count_cons, List.count_replicate,
      count_convBlockKinds_conv]
  · have hc0 : convExt.countP Node.isHiddenDense = 0 := by
      rw [List.countP_eq_zero]
      intro nd hnd
      have hk : nd.layer.kind ∈
          convBlockKinds (zip5 cf' ck' ca' cd' cs').length := by
        rw [← hkc]
        exact List.mem_map_of_mem _ hnd
      rcases mem_convBlockKinds hk with h1 | h1 <;>
        simp [isHiddenDense_false_of_kind (by rw [h1]; simp)]
    have hr0 : rnnExt.countP Node.isHiddenDense = 0 := by
      rw [List.countP_eq_zero]
      intro nd hnd
      have hk : nd.layer ∈ List.replicate flags.rnn_layers
          (Layer.bidirectional rnnT flags.rnn_units true true) := by
        rw [← hkr]
        exact List.mem_map_of_mem _ hnd
      have := List.eq_of_mem_replicate hk
      simp [Node.isHiddenDense, this]
    have hdlen : denseExt.length = (List.zip u2 a2).length := by
      have := congrArg List.length hkd
      simpa using this
    have hdc : denseExt.countP Node.isHiddenDense = denseExt.length :=
      List.countP_eq_length.mpr (by
        intro nd hnd
        simp [hhd nd hnd])
    rw [hnodes]
    simp only [List.countP_append, List.countP_cons, List.countP_nil,
      hc0, hr0, hdc, hdlen]
    simp [Node.isHiddenDense, List.length_zip]

theorem C9_zip_truncates_witness :
    ∃ (cf ck ca cd cs u2 a2 : List ParamVal),
      parse defaultFlags.cnn_filters = some cf ∧
      parse defaultFlags.cnn_kernel_size = some ck ∧
      parse defaultFlags.cnn_act = some ca ∧
      parse defaultFlags.cnn_dilation_rate = some cd ∧
      parse defaultFlags.cnn_strides = some cs ∧
      parse defaultFlags.units2 = some u2 ∧
      parse defaultFlags.act2 = some a2 ∧
      defaultModelValue.graph.kinds.count LayerKind.conv2D =
        ((((cf.length.min ck.length).min ca.length).min
          cd.length).min cs.length) ∧
      defaultModelValue.graph.nodes.countP Node.isHiddenDense =
        u2.length.min a2.length :=
  C9_zip_truncates default_model_ok

/-- Claim C1. The attention pooling of `model` is content-addressed and
mid-sequence.  Writing `[batch, t, f]` for the static output shape of
the recurrent encoder (the node list `pre` ends with the encoder
output), the graph continues with exactly: a slice of the encoder output
at the middle timestep `t / 2`; a `Dense f` projection of that slice —
the query, whose dimension `f` is the encoder's output feature
dimension; a `Dot(axes=[1,2])` of the query with the encoder output
followed by a `Softmax` over time — the attention weights; and a
`Dot(axes=[1,1])` of those weights with the encoder output — the
attention-weighted sum over time.  With `rnn_layers > 0` the encoder
output is the last Bidirectional layer's output. -/
theorem C1_attention_pooling {sfT sfF : Nat} {flags : Flags}
    {m : KerasModel} (h : model sfT sfF flags = .ok m) :
    ∃ (pre post : List Node) (encN : Node) (t f : Nat) (rnnT : RnnType),
      m.graph.nodes =
        pre ++
        [⟨pre.length, .sliceMiddle (t / 2), [pre.length - 1],
            [flags.batch_size, f]⟩,
          ⟨pre.length + 1, .dense f none, [pre.length],
            [flags.batch_size, f]⟩,
          ⟨pre.length + 2, .dot (1, 2),
            [pre.length + 1, pre.length - 1], [flags.batch_size, t]⟩,
          ⟨pre.length + 3, .softmax "attSoftmax", [pre.length + 2],
            [flags.batch_size, t]⟩,
          ⟨pre.length + 4, .dot (1, 1),
            [pre.length + 3, pre.length - 1],
            [flags.batch_size, f]⟩] ++
        post ∧
      pre.getLast? = some encN ∧
      encN.id = pre.length - 1 ∧
      encN.outShape = [flags.batch_size, t, f] ∧
      t ≠ 0 ∧
      List.lookup flags.rnn_type rnn_types = some rnnT ∧
      (0 < flags.rnn_layers →
        encN.layer = .bidirectional rnnT flags.rnn_units true true) := by
  obtain ⟨rnnT, cf, ck, ca, cd, cs, u2, a2, convExt, rnnExt, denseExt,
    t, f, t0, k, hlook, hcf, hck, hca, hcd, hcs, hu2, ha2, hnodes, hin,
    hout, hacyc, hkc, hkr, hkd, hhd, ht, encN, hgl, hid, hsh, hbid⟩ :=
    model_ok_full h
  refine ⟨([⟨0, .input [flags.desired_samples] flags.batch_size, [],
      [flags.batch_size, flags.desired_samples]⟩,
    ⟨1, .speechFeatures (sfParamsOf flags), [0],
      [flags.batch_size, sfT, sfF]⟩,
    ⟨2, .expandDims, [1], [flags.batch_size, sfT, sfF, 1]⟩] :
      List Node) ++
    convExt ++
    ([⟨3 + convExt.length, .reshape [-1, (k : Int)],
        [2 + convExt.length], [flags.batch_size, t0, k]⟩] : List Node) ++
    rnnExt,
    (⟨9 + convExt.length + rnnExt.length, .dropout flags.dropout1,
      [8 + convExt.length + rnnExt.length], [flags.batch_size, f]⟩ :
      Node) ::
    (denseExt ++
      [⟨10 + convExt.length + rnnExt.length + denseExt.length,
        .dense flags.label_count none,
        [9 + convExt.length + rnnExt.length + denseExt.length],
        [flags.batch_size, flags.label_count]⟩]),
    encN, t, f, rnnT, ?_, hgl, ?_, hsh, ht, hlook, hbid⟩
  · rw [hnodes]
    simp [List.append_assoc]
    omega
  · rw [hid]
    simp
    omega

theorem C1_attention_pooling_witness :
    ∃ (pre post : List Node) (encN : Node) (t f : Nat)
      (rnnT : RnnType),
      defaultModelValue.graph.nodes =
        pre ++
        [⟨pre.length, .sliceMiddle (t / 2), [pre.length - 1],
            [defaultFlags.batch_size, f]⟩,
          ⟨pre.length + 1, .dense f none, [pre.length],
            [defaultFlags.batch_size, f]⟩,
          ⟨pre.length + 2, .dot (1, 2),
            [pre.length + 1, pre.length - 1],
            [defaultFlags.batch_size, t]⟩,
          ⟨pre.length + 3, .softmax "attSoftmax", [pre.length + 2],
            [defaultFlags.batch_size, t]⟩,
          ⟨pre.length + 4, .dot (1, 1),
            [pre.length + 3, pre.length - 1],
            [defaultFlags.batch_size, f]⟩] ++
        post ∧
      pre.getLast? = some encN ∧
      encN.id = pre.length - 1 ∧
      encN.outShape = [defaultFlags.batch_size, t, f] ∧
      t ≠ 0 ∧
      List.lookup defaultFlags.rnn_type rnn_types = some rnnT ∧
      (0 < defaultFlags.rnn_layers →
        encN.layer = .bidirectional rnnT defaultFlags.rnn_units
          true true) :=
  C1_attention_pooling default_model_ok

/-- The dictionary lookup fails exactly on the strings other than
`"lstm"` and `"gru"`. -/
theorem lookup_rnn_types_none {s : String} (h1 : s ≠ "lstm")
    (h2 : s ≠ "gru") : List.lookup s rnn_types = none := by
  have hb1 : (s == "lstm") = false := beq_eq_false_iff_ne.mpr h1
  have hb2 : (s == "gru") = false := beq_eq_false_iff_ne.mpr h2
  simp [rnn_types, List.lookup, hb1, hb2]

/-- Claim C8. For every flags whose `rnn_type` is neither `"lstm"` nor
`"gru"`, `model` never raises the `ValueError` it constructs — the
exception value is built and discarded — and the call instead fails with
the `KeyError` of the dictionary lookup `rnn_types[flags.rnn_type]`.  In
particular `"rnn"`, advertised in the help text, is rejected this way,
while `"gru"`, not mentioned there, never produces a `KeyError`. -/
theorem C8_rnn_type_error_behaviour :
    (∀ (sfT sfF : Nat) (flags : Flags), flags.rnn_type ≠ "lstm" →
      flags.rnn_type ≠ "gru" →
      model sfT sfF flags = .error (.keyError flags.rnn_type) ∧
      ∀ msg, model sfT sfF flags ≠ .error (.valueError msg)) ∧
    (∀ (sfT sfF : Nat) (flags : Flags), flags.rnn_type = "rnn" →
      model sfT sfF flags = .error (.keyError "rnn")) ∧
    (∀ (sfT sfF : Nat) (flags : Flags), flags.rnn_type = "gru" →
      ∀ key, model sfT sfF flags ≠ .error (.keyError key)) := by
  have hkey : ∀ (sfT sfF : Nat) (flags : Flags),
      flags.rnn_type ≠ "lstm" → flags.rnn_type ≠ "gru" →
      model sfT sfF flags = .error (.keyError flags.rnn_type) := by
    intro sfT sfF flags h1 h2
    have hlook := lookup_rnn_types_none h1 h2
    simp [model, hlook]
  refine ⟨?_, ?_, ?_⟩
  · intro sfT sfF flags h1 h2
    refine ⟨hkey sfT sfF flags h1 h2, ?_⟩
    intro msg hcon
    rw [hkey sfT sfF flags h1 h2] at hcon
    simp at hcon
  · intro sfT sfF flags hr
    have := hkey sfT sfF flags (by rw [hr]; decide) (by rw [hr]; decide)
    rw [hr] at this
    exact this
  · intro sfT sfF flags hg key hcon
    have hlook : List.lookup flags.rnn_type rnn_types =
        some RnnType.gru := by
      rw [hg]
      rfl
    rcases model_err_after_lookup hlook hcon with ⟨fld, he⟩ | he
    · cases he
    · cases he

theorem C8_rnn_type_error_behaviour_witness :
    model 49 20 { defaultFlags with rnn_type := "rnn" } =
      .error (.keyError "rnn") ∧
    (∀ key, model 49 20 { defaultFlags with rnn_type := "gru" } ≠
      .error (.keyError key)) :=
  ⟨C8_rnn_type_error_behaviour.2.1 49 20
      { defaultFlags with rnn_type := "rnn" } rfl,
    C8_rnn_type_error_behaviour.2.2 49 20
      { defaultFlags with rnn_type := "gru" } rfl⟩

end AttRnn
